import Mathlib

/-!
Shallow embedding of the device-command marshaling and dispatch engine
(`internal/application/command.go`) of device-sdk-go.

Modelling conventions:
* Go maps (`map[string]string`) are association lists (`List (String × String)`);
  lookup is first-match, and Go's `m[k] = v` is `mapSet` (replace in place, else append).
* Go's `(result, err)` multiple returns become explicit pairs/`Except`.
* External collaborators that are not part of the scoped source — the profile/device
  cache, the protocol driver, the write transformer, the event converter, and the
  Go standard-library parsers `strconv.ParseFloat` and `encoding/json` — are
  parameters (fields of `Env` / `GoStd`); their outcomes appear as hypotheses.
  `encoding/base64`, `strconv.ParseBool/ParseUint/ParseInt` and the `strings`
  helpers are modelled concretely because the scoped logic depends on their
  exact behaviour.
* Floating-point values are represented by their IEEE bit patterns (`Nat`),
  never by Lean `Float`; the only float operations the source performs on them
  (big-endian reinterpretation of bytes, NaN test) are bit-level.
* A Go runtime panic (nil `*CommandValue` dereference) is the `GoOutcome.crash`
  outcome.
* The fire-and-forget side effects launched in the `defer` block of
  `CommandHandler` (last-connected update, event publication) are outside the
  model; they do not affect the returned result or any claim below.
* Driver invocations are recorded as an explicit trace (second component of the
  result of the read/write operations), so "the driver is invoked zero times"
  is the trace being `[]`.
-/

/-- Administrative state of a device or of the device service
(`models.AdminState`: LOCKED / UNLOCKED). -/
inductive AdminState where
  | locked
  | unlocked
deriving DecidableEq, Repr

/-- Operating state of a device (`models.OperatingState`: UP / DOWN). -/
inductive OperatingState where
  | up
  | down
deriving DecidableEq, Repr

/-- Error kinds used by the scoped source (`edgexErr.Kind...`). -/
inductive ErrKind where
  | serviceLocked
  | entityDoesNotExist
  | notAllowed
  | serverError
  | contractInvalid
deriving DecidableEq, Repr

/-- An EdgeX error: a kind together with its message
(`edgexErr.NewCommonEdgeX(kind, message, cause)`; the wrapped cause is folded
into the message for this model). -/
structure EdgexError where
  kind : ErrKind
  message : String
deriving DecidableEq, Repr

/-- Outcome of a Go function that can return normally, return an error, or hit
a runtime panic (nil-pointer dereference). -/
inductive GoOutcome (α : Type) where
  | ok (a : α)
  | error (e : EdgexError)
  | crash
deriving DecidableEq, Repr

/-- The error kind carried by an outcome, if the outcome is an error. -/
def GoOutcome.errKind {α : Type} : GoOutcome α → Option ErrKind
  | .error e => some e.kind
  | _ => none

/-- Map a function over the success value of an outcome. -/
def GoOutcome.mapVal {α β : Type} (f : α → β) : GoOutcome α → GoOutcome β
  | .ok a => .ok (f a)
  | .error e => .error e
  | .crash => .crash

/-- Value-type name constants (`v2.ValueType...`). -/
def ValueTypeString : String := "String"
def ValueTypeBool : String := "Bool"
def ValueTypeBoolArray : String := "BoolArray"
def ValueTypeUint8 : String := "Uint8"
def ValueTypeUint8Array : String := "Uint8Array"
def ValueTypeUint16 : String := "Uint16"
def ValueTypeUint16Array : String := "Uint16Array"
def ValueTypeUint32 : String := "Uint32"
def ValueTypeUint32Array : String := "Uint32Array"
def ValueTypeUint64 : String := "Uint64"
def ValueTypeUint64Array : String := "Uint64Array"
def ValueTypeInt8 : String := "Int8"
def ValueTypeInt8Array : String := "Int8Array"
def ValueTypeInt16 : String := "Int16"
def ValueTypeInt16Array : String := "Int16Array"
def ValueTypeInt32 : String := "Int32"
def ValueTypeInt32Array : String := "Int32Array"
def ValueTypeInt64 : String := "Int64"
def ValueTypeInt64Array : String := "Int64Array"
def ValueTypeFloat32 : String := "Float32"
def ValueTypeFloat32Array : String := "Float32Array"
def ValueTypeFloat64 : String := "Float64"
def ValueTypeFloat64Array : String := "Float64Array"

/-- Read/write permission constants (`v2.ReadWrite_R` / `_W` / `_RW`). -/
def ReadWrite_R : String := "R"
def ReadWrite_W : String := "W"
def ReadWrite_RW : String := "RW"

/-- Reserved attribute key under which a caller-supplied raw query string is
injected (`common.URLRawQuery`, outside the scoped source; its concrete value
is immaterial to the claims). -/
def URLRawQuery : String := "urlRawQuery"

/-- A Go `map[string]string` as an association list. -/
abbrev AttrMap := List (String × String)

/-- Go map indexing `m[k]`: first entry with the key. -/
def mapGet (m : AttrMap) (k : String) : Option String :=
  match m with
  | [] => none
  | (k0, v0) :: rest => if k0 = k then some v0 else mapGet rest k

/-- Go map assignment `m[k] = v`: replace the entry in place, else append. -/
def mapSet (m : AttrMap) (k v : String) : AttrMap :=
  match m with
  | [] => [(k, v)]
  | (k0, v0) :: rest => if k0 = k then (k, v) :: rest else (k0, v0) :: mapSet rest k v

/-- Properties of a device resource (`models.ResourceProperties`, the fields
the scoped source reads). -/
structure ResourceProperties where
  valueType : String
  readWrite : String
  defaultValue : String
deriving DecidableEq, Repr

/-- A Resource Declaration (`models.DeviceResource`). -/
structure DeviceResource where
  name : String
  properties : ResourceProperties
  attributes : AttrMap
deriving DecidableEq, Repr

/-- One entry of a composite command (`models.ResourceOperation`). -/
structure ResourceOperation where
  deviceResource : String
  defaultValue : String
  mappings : List (String × String)
deriving DecidableEq, Repr

/-- A Composite Command Declaration (`models.DeviceCommand`, fields the scoped
source reads). -/
structure DeviceCommand where
  name : String
  readWrite : String
  resourceOperations : List ResourceOperation
deriving DecidableEq, Repr

/-- A device snapshot (`models.Device`, fields the scoped source reads). -/
structure Device where
  name : String
  profileName : String
  adminState : AdminState
  operatingState : OperatingState
deriving DecidableEq, Repr

/-- The typed payload of a Command Value. Floats are carried as IEEE bit
patterns of the corresponding width. -/
inductive CmdVal where
  | str (s : String)
  | boolVal (b : Bool)
  | uintVal (width : Nat) (n : Nat)
  | intVal (width : Nat) (n : Int)
  | f32 (bits : Nat)
  | f64 (bits : Nat)
  | boolArr (a : List Bool)
  | uintArr (width : Nat) (a : List Nat)
  | intArr (width : Nat) (a : List Int)
  | f32Arr (a : List Nat)
  | f64Arr (a : List Nat)
deriving DecidableEq, Repr

/-- A Command Value (`dsModels.CommandValue`, fields the scoped source reads). -/
structure CommandValue where
  deviceResourceName : String
  type : String
  value : CmdVal
deriving DecidableEq, Repr

/-- A Command Request (`dsModels.CommandRequest`). -/
structure CommandRequest where
  deviceResourceName : String
  attributes : AttrMap
  type : String
deriving DecidableEq, Repr

/-- Outcome of `strconv.ParseFloat(v, 32|64)` as the scoped source
distinguishes it: success (carrying the bits of the parsed float after
conversion to the target width), a `strconv.ErrRange` failure, or any other
failure. -/
inductive FloatParse where
  | ok (bits : Nat)
  | errRange
  | errSyntax
deriving DecidableEq, Repr

/-- Go standard-library collaborators used by the Value Codec that are
modelled as parameters: `strconv.ParseFloat` for both widths and
`json.Unmarshal` into the element types used by the array branches
(float arrays carry element bit patterns). -/
structure GoStd where
  parseFloat32 : String → FloatParse
  parseFloat64 : String → FloatParse
  jsonStringMap : String → Option (List (String × String))
  jsonBoolArr : String → Option (List Bool)
  jsonI8Arr : String → Option (List Int)
  jsonI16Arr : String → Option (List Int)
  jsonI32Arr : String → Option (List Int)
  jsonI64Arr : String → Option (List Int)
  jsonF32Arr : String → Option (List Nat)
  jsonF64Arr : String → Option (List Nat)

/-- Go `strconv.ParseBool`: the fixed set of accepted literals. -/
def goParseBool (s : String) : Option Bool :=
  if s = "1" ∨ s = "t" ∨ s = "T" ∨ s = "true" ∨ s = "TRUE" ∨ s = "True" then some true
  else if s = "0" ∨ s = "f" ∨ s = "F" ∨ s = "false" ∨ s = "FALSE" ∨ s = "False" then some false
  else none

/-- Accumulate a decimal numeral; fails on any non-digit character. -/
def decDigitsAux : List Char → Nat → Option Nat
  | [], acc => some acc
  | c :: cs, acc =>
    if '0' ≤ c ∧ c ≤ '9' then decDigitsAux cs (acc * 10 + (c.toNat - 48)) else none

/-- Go `strconv.ParseUint(s, 10, bits)`: nonempty unsigned decimal within the
bit width (syntax and range failures are not distinguished because every
caller in the scoped source treats them alike). -/
def goParseUint (s : String) (bits : Nat) : Option Nat :=
  match s.data with
  | [] => none
  | cs =>
    match decDigitsAux cs 0 with
    | none => none
    | some n => if n < 2 ^ bits then some n else none

/-- Go `strconv.ParseInt(s, 10, bits)`: optional sign, decimal digits, two's
complement range check for the bit width. -/
def goParseInt (s : String) (bits : Nat) : Option Int :=
  let signed : Bool × List Char :=
    match s.data with
    | '+' :: cs => (false, cs)
    | '-' :: cs => (true, cs)
    | cs => (false, cs)
  match signed.2 with
  | [] => none
  | cs =>
    match decDigitsAux cs 0 with
    | none => none
    | some n =>
      if signed.1 then (if n ≤ 2 ^ (bits - 1) then some (-(n : Int)) else none)
      else (if n < 2 ^ (bits - 1) then some (n : Int) else none)

/-- Go `strings.Trim(s, cutset)`: strip leading and trailing characters that
appear in the cutset. -/
def goTrim (s : String) (cutset : List Char) : String :=
  String.mk (((s.data.dropWhile (fun c => cutset.contains c)).reverse.dropWhile
    (fun c => cutset.contains c)).reverse)

/-- Parse each element of an unsigned-integer array body: Go trims spaces from
the element then calls `strconv.ParseUint(elem, 10, bits)`; any failing element
fails the whole array. -/
def goParseUintList (elems : List String) (bits : Nat) : Option (List Nat)
  :=
  match elems with
  | [] => some []
  | u :: rest =>
    match goParseUint (goTrim u [' ']) bits with
    | none => none
    | some n =>
      match goParseUintList rest bits with
      | none => none
      | some ns => some (n :: ns)

/-- Value of one base64 alphabet character (`encoding/base64.StdEncoding`). -/
def b64Val (c : Char) : Option Nat :=
  if 'A' ≤ c ∧ c ≤ 'Z' then some (c.toNat - 65)
  else if 'a' ≤ c ∧ c ≤ 'z' then some (c.toNat - 97 + 26)
  else if '0' ≤ c ∧ c ≤ '9' then some (c.toNat - 48 + 52)
  else if c = '+' then some 62
  else if c = '/' then some 63
  else none

/-- Decode base64 quartets into bytes; padding is only legal in the final
quartet, exactly as `base64.StdEncoding.DecodeString` accepts it. -/
def b64DecodeGroups : List Char → Option (List Nat)
  | [] => some []
  | c1 :: c2 :: c3 :: c4 :: rest =>
    match b64Val c1, b64Val c2 with
    | some v1, some v2 =>
      if c3 = '=' then
        (if c4 = '=' ∧ rest = [] then some [v1 * 4 + v2 / 16] else none)
      else
        match b64Val c3 with
        | some v3 =>
          if c4 = '=' then
            (if rest = [] then some [v1 * 4 + v2 / 16, (v2 % 16) * 16 + v3 / 4] else none)
          else
            match b64Val c4 with
            | some v4 =>
              match b64DecodeGroups rest with
              | some bs =>
                some ((v1 * 4 + v2 / 16) :: ((v2 % 16) * 16 + v3 / 4) :: ((v3 % 4) * 64 + v4) :: bs)
              | none => none
            | none => none
        | none => none
    | _, _ => none
  | _ => none

/-- Go `base64.StdEncoding.DecodeString`: newline characters are ignored, the
rest must be well-formed quartets. Returns the decoded bytes. -/
def base64Decode (s : String) : Option (List Nat) :=
  b64DecodeGroups (s.data.filter (fun c => c ≠ '\r' ∧ c ≠ '\n'))

/-- `float32FromBytes`: `binary.Read` of a big-endian 4-byte value from the
byte slice; fails when fewer than 4 bytes are available, otherwise consumes
the first 4 bytes. Returns the bits of the float. -/
def float32FromBytes (bs : List Nat) : Option Nat :=
  match bs with
  | b0 :: b1 :: b2 :: b3 :: _ => some (((b0 * 256 + b1) * 256 + b2) * 256 + b3)
  | _ => none

/-- `float64FromBytes`: big-endian 8-byte read, same conventions. -/
def float64FromBytes (bs : List Nat) : Option Nat :=
  match bs with
  | b0 :: b1 :: b2 :: b3 :: b4 :: b5 :: b6 :: b7 :: _ =>
    some (((((((b0 * 256 + b1) * 256 + b2) * 256 + b3) * 256 + b4) * 256 + b5) * 256
      + b6) * 256 + b7)
  | _ => none

/-- `math.IsNaN` on a 32-bit pattern: exponent all ones, mantissa nonzero
(conversion of a `float32` to `float64` preserves NaN-ness exactly). -/
def isNaN32 (bits : Nat) : Bool :=
  decide ((bits / 2 ^ 23) % 2 ^ 8 = 255 ∧ bits % 2 ^ 23 ≠ 0)

/-- `math.IsNaN` on a 64-bit pattern. -/
def isNaN64 (bits : Nat) : Bool :=
  decide ((bits / 2 ^ 52) % 2 ^ 11 = 2047 ∧ bits % 2 ^ 52 ≠ 0)

/-- Modelled from the spec: `dsModels.NewCommandValue` (pkg/models, outside the
scoped source). Per the spec, every successful decode "returns a Command Value
tagged with the resource name, the declared kind, and the value in its exact
in-memory representation", so construction always succeeds and never reports
an error. -/
def NewCommandValue (name : String) (t : String) (val : CmdVal) :
    Option CommandValue × Option EdgexError :=
  (some ⟨name, t, val⟩, none)

/-- The `failed to convert set parameter ...` error of the codec branches. -/
def convErr (v t : String) : EdgexError :=
  ⟨.serverError, "failed to convert set parameter " ++ v ++ " to ValueType " ++ t⟩

/-- `createCommandValueFromDeviceResource`. The pair mirrors the Go returns
`(result *dsModels.CommandValue, err edgexErr.EdgeX)`.

Fidelity note on the Float32/Float64 branches: in the source those case
clauses declare a case-local `err` (`val, err := strconv.ParseFloat(...)`)
that shadows the function-level `err` named in the final `return result, err`.
Every assignment to `err` inside those two cases therefore targets the dead
case-local variable, so each failure path of the float branches (range error,
base64 failure, short byte slice, NaN) falls through to the final return with
a nil result and a nil function-level error: `(none, none)` here. -/
def createCommandValueFromDeviceResource (std : GoStd) (dr : DeviceResource) (v : String) :
    Option CommandValue × Option EdgexError :=
  let t := dr.properties.valueType
  if t = ValueTypeString then NewCommandValue dr.name ValueTypeString (.str v)
  else if t = ValueTypeBool then
    match goParseBool v with
    | none => (none, some (convErr v t))
    | some b => NewCommandValue dr.name ValueTypeBool (.boolVal b)
  else if t = ValueTypeBoolArray then
    match std.jsonBoolArr v with
    | none => (none, some (convErr v t))
    | some a => NewCommandValue dr.name ValueTypeBoolArray (.boolArr a)
  else if t = ValueTypeUint8 then
    match goParseUint v 8 with
    | none => (none, some (convErr v t))
    | some n => NewCommandValue dr.name ValueTypeUint8 (.uintVal 8 n)
  else if t = ValueTypeUint8Array then
    match goParseUintList ((goTrim v ['[', ']']).splitOn ",") 8 with
    | none => (none, some (convErr v t))
    | some ns => NewCommandValue dr.name ValueTypeUint8Array (.uintArr 8 ns)
  else if t = ValueTypeUint16 then
    match goParseUint v 16 with
    | none => (none, some (convErr v t))
    | some n => NewCommandValue dr.name ValueTypeUint16 (.uintVal 16 n)
  else if t = ValueTypeUint16Array then
    match goParseUintList ((goTrim v ['[', ']']).splitOn ",") 16 with
    | none => (none, some (convErr v t))
    | some ns => NewCommandValue dr.name ValueTypeUint16Array (.uintArr 16 ns)
  else if t = ValueTypeUint32 then
    match goParseUint v 32 with
    | none => (none, some (convErr v t))
    | some n => NewCommandValue dr.name ValueTypeUint32 (.uintVal 32 n)
  else if t = ValueTypeUint32Array then
    match goParseUintList ((goTrim v ['[', ']']).splitOn ",") 32 with
    | none => (none, some (convErr v t))
    | some ns => NewCommandValue dr.name ValueTypeUint32Array (.uintArr 32 ns)
  else if t = ValueTypeUint64 then
    match goParseUint v 64 with
    | none => (none, some (convErr v t))
    | some n => NewCommandValue dr.name ValueTypeUint64 (.uintVal 64 n)
  else if t = ValueTypeUint64Array then
    match goParseUintList ((goTrim v ['[', ']']).splitOn ",") 64 with
    | none => (none, some (convErr v t))
    | some ns => NewCommandValue dr.name ValueTypeUint64Array (.uintArr 64 ns)
  else if t = ValueTypeInt8 then
    match goParseInt v 8 with
    | none => (none, some (convErr v t))
    | some n => NewCommandValue dr.name ValueTypeInt8 (.intVal 8 n)
  else if t = ValueTypeInt8Array then
    match std.jsonI8Arr v with
    | none => (none, some (convErr v t))
    | some a => NewCommandValue dr.name ValueTypeInt8Array (.intArr 8 a)
  else if t = ValueTypeInt16 then
    match goParseInt v 16 with
    | none => (none, some (convErr v t))
    | some n => NewCommandValue dr.name ValueTypeInt16 (.intVal 16 n)
  else if t = ValueTypeInt16Array then
    match std.jsonI16Arr v with
    | none => (none, some (convErr v t))
    | some a => NewCommandValue dr.name ValueTypeInt16Array (.intArr 16 a)
  else if t = ValueTypeInt32 then
    match goParseInt v 32 with
    | none => (none, some (convErr v t))
    | some n => NewCommandValue dr.name ValueTypeInt32 (.intVal 32 n)
  else if t = ValueTypeInt32Array then
    match std.jsonI32Arr v with
    | none => (none, some (convErr v t))
    | some a => NewCommandValue dr.name ValueTypeInt32Array (.intArr 32 a)
  else if t = ValueTypeInt64 then
    match goParseInt v 64 with
    | none => (none, some (convErr v t))
    | some n => NewCommandValue dr.name ValueTypeInt64 (.intVal 64 n)
  else if t = ValueTypeInt64Array then
    match std.jsonI64Arr v with
    | none => (none, some (convErr v t))
    | some a => NewCommandValue dr.name ValueTypeInt64Array (.intArr 64 a)
  else if t = ValueTypeFloat32 then
    match std.parseFloat32 v with
    | .ok bits => NewCommandValue dr.name ValueTypeFloat32 (.f32 bits)
    | .errRange => (none, none)
    | .errSyntax =>
      match base64Decode v with
      | none => (none, none)
      | some bs =>
        match float32FromBytes bs with
        | none => (none, none)
        | some bits =>
          if isNaN32 bits then (none, none)
          else NewCommandValue dr.name ValueTypeFloat32 (.f32 bits)
  else if t = ValueTypeFloat32Array then
    match std.jsonF32Arr v with
    | none => (none, some (convErr v t))
    | some a => NewCommandValue dr.name ValueTypeFloat32Array (.f32Arr a)
  else if t = ValueTypeFloat64 then
    match std.parseFloat64 v with
    | .ok bits => NewCommandValue dr.name ValueTypeFloat64 (.f64 bits)
    | .errRange => (none, none)
    | .errSyntax =>
      match base64Decode v with
      | none => (none, none)
      | some bs =>
        match float64FromBytes bs with
        | none => (none, none)
        | some bits =>
          if isNaN64 bits then (none, none)
          else NewCommandValue dr.name ValueTypeFloat64 (.f64 bits)
  else if t = ValueTypeFloat64Array then
    match std.jsonF64Arr v with
    | none => (none, some (convErr v t))
    | some a => NewCommandValue dr.name ValueTypeFloat64Array (.f64Arr a)
  else (none, some ⟨.serverError, "unrecognized value type"⟩)

/-- The profile/device cache collaborator (`cache.Devices()` / `cache.Profiles()`):
read-only name-based lookups. -/
structure Cache where
  deviceForName : String → Option Device
  deviceResource : String → String → Option DeviceResource
  deviceCommand : String → String → Option DeviceCommand

/-- The configuration fields the scoped source reads
(`configuration.Device.MaxCmdOps`, `configuration.Device.DataTransform`). -/
structure Config where
  maxCmdOps : Nat
  dataTransform : Bool

/-- An externally produced event (`dtos.Event`); its structure is opaque to
the scoped source, which only forwards it. -/
abbrev Event := List CommandValue

/-- One driver read invocation: the request batch handed to
`driver.HandleReadCommands`. -/
abbrev ReadCall := List CommandRequest

/-- One driver write invocation: the request batch and value batch handed to
`driver.HandleWriteCommands`. -/
abbrev WriteCall := List CommandRequest × List CommandValue

/-- The collaborators and state an invocation runs against: service admin
state, cache, configuration, Go standard-library parsers, the protocol
driver (`some` results / `none` error for reads; `some errMsg` failure for
writes), the write transformer (`none` = transform failure) and the
CommandValue-to-Event converter (`none` = conversion failure). -/
structure Env where
  serviceAdminState : AdminState
  cache : Cache
  config : Config
  std : GoStd
  driverRead : List CommandRequest → Option (List CommandValue)
  driverWrite : List CommandRequest → List CommandValue → Option String
  transformWrite : CommandValue → ResourceProperties → Option CommandValue
  toEvent : List CommandValue → String → String → Option Event

/-- The `CommandProcessor` receiver struct. -/
structure CommandProcessor where
  device : Device
  sourceName : String
  correlationID : String
  body : String
  attributes : String

/-- Request-attribute preparation shared by all four operations:
`req.Attributes = dr.Attributes; if c.attributes != "" { if len(req.Attributes) <= 0
{ req.Attributes = make(...) }; req.Attributes[common.URLRawQuery] = c.attributes }`.
Go maps are references: the first assignment aliases the declaration's map, so
when the declaration's map is non-empty the raw-query entry is written into
that same map. The result is the pair (request attributes, declaration
attributes as observable after the statement). -/
def prepareAttributes (drAttrs : AttrMap) (rawQuery : String) : AttrMap × AttrMap :=
  if rawQuery = "" then (drAttrs, drAttrs)
  else if drAttrs.length ≤ 0 then ([(URLRawQuery, rawQuery)], drAttrs)
  else
    let shared := mapSet drAttrs URLRawQuery rawQuery
    (shared, shared)

/-- `parseParams`: `json.Unmarshal` of the body into a string map, then the
empty-map check. -/
def parseParams (std : GoStd) (body : String) : Except String (List (String × String)) :=
  match std.jsonStringMap body with
  | none => .error "unmarshal failure"
  | some m => if m.length = 0 then .error "no parameters specified" else .ok m

/-- The write-value mapping loop of `WriteDeviceCommand` (lines 345-358):
substitute the first table entry whose value equals the candidate by its key;
otherwise (including the empty table) the candidate is kept and only a
non-fatal warning is logged. -/
def applyMappings : List (String × String) → String → String
  | [], value => value
  | (k, mv) :: rest, value => if mv = value then k else applyMappings rest value

/-- Value resolution of one Resource Operation in `WriteDeviceCommand`
(lines 332-343): body entry, else the operation's own default, else the
resource's default, else a `ServerError`. -/
def resolveValue (paramMap : List (String × String)) (ro : ResourceOperation)
    (dr : DeviceResource) : Except EdgexError String :=
  match mapGet paramMap ro.deviceResource with
  | some v => .ok v
  | none =>
    if ro.defaultValue ≠ "" then .ok ro.defaultValue
    else if dr.properties.defaultValue ≠ "" then .ok dr.properties.defaultValue
    else .error ⟨.serverError,
      "deviceResource " ++ dr.name ++ " not found in request body and no default value defined"⟩

/-- Outcome of handing a resolved textual value to the codec inside the
`WriteDeviceCommand` loop: a non-nil codec error aborts with `ServerError`,
otherwise the (possibly nil) Command Value is accumulated. -/
def cvStep (std : GoStd) (dr : DeviceResource) (value : String) :
    Except EdgexError (Option CommandValue) :=
  match createCommandValueFromDeviceResource std dr value with
  | (_, some _) => .error ⟨.serverError, "failed to create CommandValue"⟩
  | (cv, none) => .ok cv

/-- One iteration of the CommandValue-creation loop of `WriteDeviceCommand`
(lines 317-367): resource existence, per-entry read-only check, value
resolution, mapping substitution, codec. -/
def processOp (env : Env) (c : CommandProcessor) (dcName : String)
    (paramMap : List (String × String)) (ro : ResourceOperation) :
    Except EdgexError (Option CommandValue) :=
  match env.cache.deviceResource c.device.profileName ro.deviceResource with
  | none => .error ⟨.serverError,
      "deviceResource " ++ ro.deviceResource ++ " in SET commnd " ++ dcName ++ " for "
        ++ c.device.name ++ " not defined"⟩
  | some dr =>
    if dr.properties.readWrite = ReadWrite_R then
      .error ⟨.notAllowed,
        "deviceResource " ++ ro.deviceResource ++ " in SET command " ++ dcName
          ++ " is marked as read-only"⟩
    else
      match resolveValue paramMap ro dr with
      | .error e => .error e
      | .ok value0 => cvStep env.std dr (applyMappings ro.mappings value0)

/-- The CommandValue-creation loop of `WriteDeviceCommand` over the Resource
Operations in declared order; the first failing entry aborts the whole loop. -/
def processOps (env : Env) (c : CommandProcessor) (dcName : String)
    (paramMap : List (String × String)) :
    List ResourceOperation → Except EdgexError (List (Option CommandValue))
  | [] => .ok []
  | ro :: rest =>
    match processOp env c dcName paramMap ro with
    | .error e => .error e
    | .ok cv =>
      match processOps env c dcName paramMap rest with
      | .error e => .error e
      | .ok cvs => .ok (cv :: cvs)

/-- The zero value of `models.DeviceResource`, produced by the ignored-ok
lookup `dr, _ := cache.Profiles().DeviceResource(...)` in the request loop. -/
def zeroDeviceResource : DeviceResource := ⟨"", ⟨"", "", ""⟩, []⟩

/-- The CommandRequest-preparation and write-transformation loop of
`WriteDeviceCommand` (lines 369-391). Dereferencing a nil Command Value (the
silent float-codec failure) is a runtime panic, `crash`. Returns the request
batch and the (transformed, as dispatched) value batch. -/
def buildReqsAndTransform (env : Env) (c : CommandProcessor) :
    List (Option CommandValue) → GoOutcome (List CommandRequest × List CommandValue)
  | [] => .ok ([], [])
  | none :: _ => .crash
  | some cv :: rest =>
    let dr := (env.cache.deviceResource c.device.profileName cv.deviceResourceName).getD
      zeroDeviceResource
    let req : CommandRequest :=
      ⟨cv.deviceResourceName, (prepareAttributes dr.attributes c.attributes).1, cv.type⟩
    let step : GoOutcome CommandValue :=
      if env.config.dataTransform then
        match env.transformWrite cv dr.properties with
        | none => .error ⟨.contractInvalid, "failed to transform set parameter"⟩
        | some cv2 => .ok cv2
      else .ok cv
    match step with
    | .error e => .error e
    | .crash => .crash
    | .ok cv2 =>
      match buildReqsAndTransform env c rest with
      | .error e => .error e
      | .crash => .crash
      | .ok (reqs, cvs) => .ok (req :: reqs, cv2 :: cvs)

/-- `WriteDeviceCommand` (lines 288-402), with the driver write invocations it
issues recorded as a trace. -/
def WriteDeviceCommand (env : Env) (c : CommandProcessor) :
    GoOutcome Unit × List WriteCall :=
  match env.cache.deviceCommand c.device.profileName c.sourceName with
  | none => (.error ⟨.entityDoesNotExist, "deviceCommand " ++ c.sourceName ++ " not found"⟩, [])
  | some dc =>
    if dc.readWrite = ReadWrite_R then
      (.error ⟨.notAllowed, "deviceCommand " ++ dc.name ++ " is marked as read-only"⟩, [])
    else if dc.resourceOperations.length > env.config.maxCmdOps then
      (.error ⟨.serverError,
        "SET command " ++ dc.name ++ " exceed device " ++ c.device.name ++ " MaxCmdOps ("
          ++ toString env.config.maxCmdOps ++ ")"⟩, [])
    else
      match parseParams env.std c.body with
      | .error _ => (.error ⟨.serverError, "failed to parse SET command parameters"⟩, [])
      | .ok paramMap =>
        match processOps env c dc.name paramMap dc.resourceOperations with
        | .error e => (.error e, [])
        | .ok cvs =>
          match buildReqsAndTransform env c cvs with
          | .error e => (.error e, [])
          | .crash => (.crash, [])
          | .ok (reqs, cvs2) =>
            match env.driverWrite reqs cvs2 with
            | some _ => (.error ⟨.serverError,
                "error writing DeviceCommand " ++ dc.name ++ " for " ++ c.device.name⟩,
                [(reqs, cvs2)])
            | none => (.ok (), [(reqs, cvs2)])

/-- `WriteDeviceResource` (lines 218-286), with the driver write invocations
recorded as a trace. -/
def WriteDeviceResource (env : Env) (c : CommandProcessor) :
    GoOutcome Unit × List WriteCall :=
  match env.cache.deviceResource c.device.profileName c.sourceName with
  | none => (.error ⟨.entityDoesNotExist, "deviceResource " ++ c.sourceName ++ " not found"⟩, [])
  | some dr =>
    if dr.properties.readWrite = ReadWrite_R then
      (.error ⟨.notAllowed, "deviceResource " ++ dr.name ++ " is marked as read-only"⟩, [])
    else
      match parseParams env.std c.body with
      | .error _ => (.error ⟨.serverError, "failed to parse SET command parameters"⟩, [])
      | .ok paramMap =>
        match (match mapGet paramMap dr.name with
          | some v => Except.ok v
          | none =>
            if dr.properties.defaultValue ≠ "" then Except.ok dr.properties.defaultValue
            else Except.error (⟨.serverError, "deviceResource " ++ dr.name
              ++ " not found in request body and no default value defined"⟩ : EdgexError)) with
        | .error e => (.error e, [])
        | .ok v =>
          match createCommandValueFromDeviceResource env.std dr v with
          | (_, some _) => (.error ⟨.serverError, "failed to create CommandValue"⟩, [])
          | (none, none) => (.crash, [])
          | (some cv, none) =>
            let req : CommandRequest :=
              ⟨cv.deviceResourceName, (prepareAttributes dr.attributes c.attributes).1, cv.type⟩
            let step : GoOutcome CommandValue :=
              if env.config.dataTransform then
                match env.transformWrite cv dr.properties with
                | none => .error ⟨.contractInvalid, "failed to transform set parameter"⟩
                | some cv2 => .ok cv2
              else .ok cv
            match step with
            | .error e => (.error e, [])
            | .crash => (.crash, [])
            | .ok cv2 =>
              match env.driverWrite [req] [cv2] with
              | some _ => (.error ⟨.serverError,
                  "error writing DeviceResourece " ++ dr.name ++ " for " ++ c.device.name⟩,
                  [([req], [cv2])])
              | none => (.ok (), [([req], [cv2])])

/-- `ReadDeviceResource` (lines 111-156), with the driver read invocations
recorded as a trace. -/
def ReadDeviceResource (env : Env) (c : CommandProcessor) :
    GoOutcome Event × List ReadCall :=
  match env.cache.deviceResource c.device.profileName c.sourceName with
  | none => (.error ⟨.entityDoesNotExist, "deviceResource " ++ c.sourceName ++ " not found"⟩, [])
  | some dr =>
    if dr.properties.readWrite = ReadWrite_W then
      (.error ⟨.notAllowed, "deviceResource " ++ dr.name ++ " is marked as write-only"⟩, [])
    else
      let req : CommandRequest :=
        ⟨dr.name, (prepareAttributes dr.attributes c.attributes).1, dr.properties.valueType⟩
      match env.driverRead [req] with
      | none => (.error ⟨.serverError,
          "error reading DeviceResourece " ++ dr.name ++ " for " ++ c.device.name⟩, [[req]])
      | some results =>
        match env.toEvent results c.device.name dr.name with
        | none => (.error ⟨.serverError, "failed to convert CommandValue to Event"⟩, [[req]])
        | some ev => (.ok ev, [[req]])

/-- The CommandRequest-preparation loop of `ReadDeviceCommand` (lines 180-199):
per-entry resource existence, then request assembly in declared order. -/
def buildReadReqs (env : Env) (c : CommandProcessor) (dcName : String) :
    List ResourceOperation → Except EdgexError (List CommandRequest)
  | [] => .ok []
  | op :: rest =>
    match env.cache.deviceResource c.device.profileName op.deviceResource with
    | none => .error ⟨.serverError,
        "deviceResource " ++ op.deviceResource ++ " in GET commnd " ++ dcName ++ " for "
          ++ c.device.name ++ " not defined"⟩
    | some dr =>
      let req : CommandRequest :=
        ⟨dr.name, (prepareAttributes dr.attributes c.attributes).1, dr.properties.valueType⟩
      match buildReadReqs env c dcName rest with
      | .error e => .error e
      | .ok reqs => .ok (req :: reqs)

/-- `ReadDeviceCommand` (lines 158-216), with the driver read invocations
recorded as a trace. -/
def ReadDeviceCommand (env : Env) (c : CommandProcessor) :
    GoOutcome Event × List ReadCall :=
  match env.cache.deviceCommand c.device.profileName c.sourceName with
  | none => (.error ⟨.entityDoesNotExist, "deviceCommand " ++ c.sourceName ++ " not found"⟩, [])
  | some dc =>
    if dc.readWrite = ReadWrite_W then
      (.error ⟨.notAllowed, "deviceCommand " ++ dc.name ++ " is marked as write-only"⟩, [])
    else if dc.resourceOperations.length > env.config.maxCmdOps then
      (.error ⟨.serverError,
        "GET command " ++ dc.name ++ " exceed device " ++ c.device.name ++ " MaxCmdOps ("
          ++ toString env.config.maxCmdOps ++ ")"⟩, [])
    else
      match buildReadReqs env c dc.name dc.resourceOperations with
      | .error e => (.error e, [])
      | .ok reqs =>
        match env.driverRead reqs with
        | none => (.error ⟨.serverError,
            "error reading DeviceCommand " ++ dc.name ++ " for " ++ c.device.name⟩, [reqs])
        | some results =>
          match env.toEvent results c.device.name dc.name with
          | none => (.error ⟨.serverError, "failed to transform CommandValue to Event"⟩, [reqs])
          | some ev => (.ok ev, [reqs])

/-- `CommandHandler` (lines 53-109): the ordered eligibility checks, then
dispatch to the composite-command or single-resource read/write operation.
The fire-and-forget side effects of the deferred block are outside the model;
the returned value is the handler's `(res, err)` pair (a write returns no
event, modelled as `none`). -/
def CommandHandler (env : Env) (isRead : Bool) (deviceName cmd body attributes : String) :
    GoOutcome (Option Event) :=
  if env.serviceAdminState = AdminState.locked then
    .error ⟨.serviceLocked, "service locked"⟩
  else
    match env.cache.deviceForName deviceName with
    | none => .error ⟨.entityDoesNotExist, "device " ++ deviceName ++ " not found"⟩
    | some device =>
      if device.adminState = AdminState.locked then
        .error ⟨.serviceLocked, "device " ++ device.name ++ " locked"⟩
      else if device.operatingState = OperatingState.down then
        .error ⟨.serviceLocked, "device " ++ device.name ++ " OperatingState is DOWN"⟩
      else
        let c : CommandProcessor := ⟨device, cmd, "", body, attributes⟩
        match env.cache.deviceCommand device.profileName cmd with
        | some _ =>
          if isRead then (ReadDeviceCommand env c).1.mapVal some
          else (WriteDeviceCommand env c).1.mapVal (fun _ => none)
        | none =>
          if isRead then (ReadDeviceResource env c).1.mapVal some
          else (WriteDeviceResource env c).1.mapVal (fun _ => none)

/-- Equality of `Except` results is decidable, so concrete scenarios can be
settled by evaluation. -/
instance {ε α : Type} [DecidableEq ε] [DecidableEq α] : DecidableEq (Except ε α) := fun a b =>
  match a, b with
  | .error e1, .error e2 => decidable_of_iff (e1 = e2) (by simp)
  | .ok a1, .ok a2 => decidable_of_iff (a1 = a2) (by simp)
  | .error _, .ok _ => .isFalse (by simp)
  | .ok _, .error _ => .isFalse (by simp)

/-- Splitting lemma for the CommandValue-creation loop: processing a
concatenation of operation lists processes the first list first and
short-circuits on its failure. -/
theorem processOps_append (env : Env) (c : CommandProcessor) (dcName : String)
    (m : List (String × String)) (l1 l2 : List ResourceOperation) :
    processOps env c dcName m (l1 ++ l2) =
      match processOps env c dcName m l1 with
      | .error e => .error e
      | .ok cvs1 =>
        match processOps env c dcName m l2 with
        | .error e => .error e
        | .ok cvs2 => .ok (cvs1 ++ cvs2) := by
  induction l1 with
  | nil =>
    simp only [List.nil_append, processOps]
    cases processOps env c dcName m l2 <;> rfl
  | cons ro rest ih =>
    simp only [List.cons_append, processOps]
    cases processOp env c dcName m ro with
    | error e => rfl
    | ok cv =>
      rw [show rest.append l2 = rest ++ l2 from rfl, ih]
      cases processOps env c dcName m rest with
      | error e => rfl
      | ok cvs1 =>
        cases processOps env c dcName m l2 with
        | error e => rfl
        | ok cvs2 => rfl

/-- A healthy device used by the concrete scenarios. -/
def devUp : Device := ⟨"dev1", "prof", .unlocked, .up⟩

/-- A device whose own administrative state is Locked. -/
def devLockedX : Device := ⟨"dlk", "prof", .locked, .up⟩

/-- A device whose operating state is Down. -/
def devDownX : Device := ⟨"ddn", "prof", .unlocked, .down⟩

/-- Standard-library model in which every parameterised parser fails
(`strconv.ParseFloat` reports a non-range failure, `json.Unmarshal` fails);
this is Go's behaviour on non-numeric, non-JSON input. -/
def stdSyn : GoStd :=
  ⟨fun _ => .errSyntax, fun _ => .errSyntax, fun _ => none, fun _ => none, fun _ => none,
   fun _ => none, fun _ => none, fun _ => none, fun _ => none, fun _ => none⟩

/-- Standard-library model reflecting Go `strconv.ParseFloat` on the special
textual floats: `"NaN"`, `"Inf"` and `"-Inf"` parse successfully to the
corresponding IEEE patterns; everything else is a non-range failure. -/
def stdSpecials : GoStd :=
  ⟨fun v =>
      if v = "NaN" then .ok 2143289344
      else if v = "Inf" then .ok 2139095040
      else if v = "-Inf" then .ok 4286578688
      else .errSyntax,
   fun v =>
      if v = "NaN" then .ok 9221120237041090560
      else if v = "Inf" then .ok 9218868437227405312
      else if v = "-Inf" then .ok 18442240474082181120
      else .errSyntax,
   fun _ => none, fun _ => none, fun _ => none, fun _ => none, fun _ => none, fun _ => none,
   fun _ => none, fun _ => none⟩

/-- A Float32 resource declaration. -/
def drF32c : DeviceResource := ⟨"fres", ⟨"Float32", "RW", ""⟩, []⟩

/-- A Float64 resource declaration. -/
def drF64c : DeviceResource := ⟨"fre8", ⟨"Float64", "RW", ""⟩, []⟩

/-- Environment builder with a successful, inert driver, transformer and
event converter. -/
def mkEnv (svc : AdminState) (cache : Cache) (cfg : Config) (std : GoStd) : Env :=
  ⟨svc, cache, cfg, std, fun _ => some [], fun _ _ => none, fun cv _ => some cv,
   fun r _ _ => some r⟩

/-- Composite-write scenario for the silent float decode failure: one
Resource Operation backed by a Float32 resource whose body value `"!!!"`
fails both the decimal parse and the base64 fallback. -/
def roC1 : ResourceOperation := ⟨"fres", "", []⟩
def dcC1 : DeviceCommand := ⟨"setF", "RW", [roC1]⟩
def stdC1 : GoStd :=
  ⟨fun _ => .errSyntax, fun _ => .errSyntax, fun _ => some [("fres", "!!!")], fun _ => none,
   fun _ => none, fun _ => none, fun _ => none, fun _ => none, fun _ => none, fun _ => none⟩
def cacheC1 : Cache :=
  ⟨fun _ => some devUp, fun _ r => if r = "fres" then some drF32c else none,
   fun _ cmd => if cmd = "setF" then some dcC1 else none⟩
def envC1 : Env := mkEnv .unlocked cacheC1 ⟨16, false⟩ stdC1
def procC1 : CommandProcessor := ⟨devUp, "setF", "", "body", ""⟩

/-- C1: the claim states that every constituent-resolution failure of a
composite write (including a decode failure) returns an error with zero
driver write invocations. The code violates this for the float value kinds:
the case-local `err` shadowing in `createCommandValueFromDeviceResource`
makes a failed float decode return a nil Command Value together with a nil
error, the nil value is appended to the batch, and preparing the Command
Requests dereferences it — a runtime panic instead of a returned error (the
driver is still never invoked). This theorem evaluates the composite write at
such a failing input: the loop accepts the nil value and the operation
crashes with an empty driver trace. -/
theorem writeDeviceCommand_float_decode_failure_crashes :
    processOps envC1 procC1 "setF" [("fres", "!!!")] [roC1] = .ok [none]
  ∧ WriteDeviceCommand envC1 procC1 = (.crash, []) := by decide

/-- C3: the claim states that building a Command Request leaves the Resource
Declaration's static attribute map unchanged. The code violates this: Go maps
are references, `req.Attributes = dr.Attributes` aliases the declaration's
map, and when that map is non-empty the raw-query entry is written into it.
Evaluated at a declaration with attributes `a ↦ b` and raw query `q`, the
declaration's map afterwards holds the reserved raw-query entry and differs
from its prior value. -/
theorem prepareAttributes_mutates_declared_map :
    (prepareAttributes [("a", "b")] "q").2 = [("a", "b"), (URLRawQuery, "q")]
  ∧ ¬ (prepareAttributes [("a", "b")] "q").2 = [("a", "b")] := by decide

/-- C4: the claim states that a float decode whose decimal parse fails for a
non-range reason and whose binary fallback also fails returns an error
surfacing the original decode error, and that a fallback producing NaN
returns an error. The code violates both: every failure path of the float
branches assigns the case-local shadowed `err`, so the function returns a nil
result and a nil error. Evaluated at `"!!!"` (decimal parse fails, base64
fails) and at `"f8AAAA=="` (valid base64 of the NaN pattern `0x7FC00000`),
the codec reports no error at all. -/
theorem float_codec_failures_return_no_error :
    createCommandValueFromDeviceResource stdSyn drF32c "!!!" = (none, none)
  ∧ base64Decode "f8AAAA==" = some [127, 192, 0, 0]
  ∧ isNaN32 2143289344 = true
  ∧ createCommandValueFromDeviceResource stdSyn drF32c "f8AAAA==" = (none, none)
  ∧ createCommandValueFromDeviceResource stdSyn drF64c "!!!" = (none, none) := by decide

/-- C2: the eligibility checks of `CommandHandler` run in the fixed order
service administrative state, device existence, device administrative state,
device operating state, short-circuiting on the first failure: a Locked
service yields ServiceLocked regardless of everything else; an unknown device
yields EntityNotFound; a Locked device and a Down device yield ServiceLocked
for every operation name, read flag and body. -/
theorem commandHandler_eligibility_check_order (env : Env) (isRead : Bool)
    (deviceName cmd body attrs : String) :
    (env.serviceAdminState = .locked →
      CommandHandler env isRead deviceName cmd body attrs =
        .error ⟨.serviceLocked, "service locked"⟩)
  ∧ (env.serviceAdminState ≠ .locked → env.cache.deviceForName deviceName = none →
      (CommandHandler env isRead deviceName cmd body attrs).errKind = some .entityDoesNotExist)
  ∧ (∀ d, env.serviceAdminState ≠ .locked → env.cache.deviceForName deviceName = some d →
      d.adminState = .locked →
      (CommandHandler env isRead deviceName cmd body attrs).errKind = some .serviceLocked)
  ∧ (∀ d, env.serviceAdminState ≠ .locked → env.cache.deviceForName deviceName = some d →
      d.adminState ≠ .locked → d.operatingState = .down →
      (CommandHandler env isRead deviceName cmd body attrs).errKind = some .serviceLocked) := by
  refine ⟨fun h => ?_, fun h1 h2 => ?_, fun d h1 h2 h3 => ?_, fun d h1 h2 h3 h4 => ?_⟩ <;>
    simp [CommandHandler, GoOutcome.errKind, *]

/-- Cache for the eligibility scenarios: a locked device and a down device. -/
def cacheGuard : Cache :=
  ⟨fun n => if n = "dlk" then some devLockedX else if n = "ddn" then some devDownX else none,
   fun _ _ => none, fun _ _ => none⟩
def envSvcLocked : Env := mkEnv .locked cacheGuard ⟨16, false⟩ stdSyn
def envSvcOpen : Env := mkEnv .unlocked cacheGuard ⟨16, false⟩ stdSyn

/-- Witness for C2 at concrete inputs: a locked service, an unknown device,
a locked device and a down device. -/
theorem commandHandler_eligibility_check_order_witness :
    CommandHandler envSvcLocked true "d" "c" "" "" = .error ⟨.serviceLocked, "service locked"⟩
  ∧ (CommandHandler envSvcOpen true "nodev" "c" "" "").errKind = some .entityDoesNotExist
  ∧ (CommandHandler envSvcOpen false "dlk" "c" "" "").errKind = some .serviceLocked
  ∧ (CommandHandler envSvcOpen false "ddn" "c" "" "").errKind = some .serviceLocked :=
  ⟨(commandHandler_eligibility_check_order envSvcLocked true "d" "c" "" "").1 rfl,
   (commandHandler_eligibility_check_order envSvcOpen true "nodev" "c" "" "").2.1
     (by decide) (by decide),
   (commandHandler_eligibility_check_order envSvcOpen false "dlk" "c" "" "").2.2.1
     devLockedX (by decide) (by decide) (by decide),
   (commandHandler_eligibility_check_order envSvcOpen false "ddn" "c" "" "").2.2.2
     devDownX (by decide) (by decide) (by decide) (by decide)⟩

/-- C5: for the 32- and 64-bit float kinds, an input whose decimal parse
fails for a non-range reason but which is a valid base64 encoding of exactly
the bytes of a big-endian IEEE float of the matching width, and whose decoded
pattern is not NaN, decodes successfully to a Command Value holding exactly
that float. -/
theorem float_base64_fallback_decode_ok :
    (∀ (std : GoStd) (dr : DeviceResource) (v : String) (bs : List Nat) (bits : Nat),
      dr.properties.valueType = ValueTypeFloat32 →
      std.parseFloat32 v = .errSyntax →
      base64Decode v = some bs →
      bs.length = 4 →
      float32FromBytes bs = some bits →
      isNaN32 bits = false →
      createCommandValueFromDeviceResource std dr v =
        (some ⟨dr.name, ValueTypeFloat32, .f32 bits⟩, none))
  ∧ (∀ (std : GoStd) (dr : DeviceResource) (v : String) (bs : List Nat) (bits : Nat),
      dr.properties.valueType = ValueTypeFloat64 →
      std.parseFloat64 v = .errSyntax →
      base64Decode v = some bs →
      bs.length = 8 →
      float64FromBytes bs = some bits →
      isNaN64 bits = false →
      createCommandValueFromDeviceResource std dr v =
        (some ⟨dr.name, ValueTypeFloat64, .f64 bits⟩, none)) := by
  constructor <;> intro std dr v bs bits ht hpf hb hlen hfb hnan <;>
    simp only [createCommandValueFromDeviceResource, ht, hpf, hb, hfb, hnan,
      NewCommandValue] <;>
    simp [ValueTypeString, ValueTypeBool, ValueTypeBoolArray, ValueTypeUint8,
      ValueTypeUint8Array, ValueTypeUint16, ValueTypeUint16Array, ValueTypeUint32,
      ValueTypeUint32Array, ValueTypeUint64, ValueTypeUint64Array, ValueTypeInt8,
      ValueTypeInt8Array, ValueTypeInt16, ValueTypeInt16Array, ValueTypeInt32,
      ValueTypeInt32Array, ValueTypeInt64, ValueTypeInt64Array, ValueTypeFloat32,
      ValueTypeFloat32Array, ValueTypeFloat64, ValueTypeFloat64Array]

/-- Witness for C5: `"QEkP2w=="` (the bytes of the float32 `0x40490FDB`) and
`"QAkh+1RELRg="` (the bytes of the float64 `0x400921FB54442D18`) fail the
decimal parse and decode through the fallback to exactly those patterns. -/
theorem float_base64_fallback_decode_ok_witness :
    createCommandValueFromDeviceResource stdSyn drF32c "QEkP2w==" =
      (some ⟨"fres", ValueTypeFloat32, .f32 1078530011⟩, none)
  ∧ createCommandValueFromDeviceResource stdSyn drF64c "QAkh+1RELRg=" =
      (some ⟨"fre8", ValueTypeFloat64, .f64 4614256656552045848⟩, none) :=
  ⟨float_base64_fallback_decode_ok.1 stdSyn drF32c "QEkP2w==" [64, 73, 15, 219] 1078530011
     (by decide) rfl (by decide) (by decide) (by decide) (by decide),
   float_base64_fallback_decode_ok.2 stdSyn drF64c "QAkh+1RELRg="
     [64, 9, 33, 251, 84, 68, 45, 24] 4614256656552045848
     (by decide) rfl (by decide) (by decide) (by decide) (by decide)⟩

/-- C10: for the float kinds, whenever the direct decimal parse succeeds the
decoded Command Value holds exactly the parsed pattern and no error is
reported — there is no NaN filtering on this path (the NaN rejection sits
only in the base64 fallback), so the special texts NaN, Inf and -Inf are
accepted with their IEEE patterns. -/
theorem float_decimal_path_accepts_specials :
    (∀ (std : GoStd) (dr : DeviceResource) (v : String) (bits : Nat),
      dr.properties.valueType = ValueTypeFloat32 →
      std.parseFloat32 v = .ok bits →
      createCommandValueFromDeviceResource std dr v =
        (some ⟨dr.name, ValueTypeFloat32, .f32 bits⟩, none))
  ∧ (∀ (std : GoStd) (dr : DeviceResource) (v : String) (bits : Nat),
      dr.properties.valueType = ValueTypeFloat64 →
      std.parseFloat64 v = .ok bits →
      createCommandValueFromDeviceResource std dr v =
        (some ⟨dr.name, ValueTypeFloat64, .f64 bits⟩, none)) := by
  constructor <;> intro std dr v bits ht hpf <;>
    simp only [createCommandValueFromDeviceResource, ht, hpf, NewCommandValue] <;>
    simp [ValueTypeString, ValueTypeBool, ValueTypeBoolArray, ValueTypeUint8,
      ValueTypeUint8Array, ValueTypeUint16, ValueTypeUint16Array, ValueTypeUint32,
      ValueTypeUint32Array, ValueTypeUint64, ValueTypeUint64Array, ValueTypeInt8,
      ValueTypeInt8Array, ValueTypeInt16, ValueTypeInt16Array, ValueTypeInt32,
      ValueTypeInt32Array, ValueTypeInt64, ValueTypeInt64Array, ValueTypeFloat32,
      ValueTypeFloat32Array, ValueTypeFloat64, ValueTypeFloat64Array]

/-- Witness for C10: with the Go `strconv.ParseFloat` behaviour on the
special texts, `"NaN"`, `"Inf"` and `"-Inf"` all decode successfully on the
decimal path, including the (quiet) NaN pattern. -/
theorem float_decimal_path_accepts_specials_witness :
    createCommandValueFromDeviceResource stdSpecials drF32c "NaN" =
      (some ⟨"fres", ValueTypeFloat32, .f32 2143289344⟩, none)
  ∧ isNaN32 2143289344 = true
  ∧ createCommandValueFromDeviceResource stdSpecials drF32c "Inf" =
      (some ⟨"fres", ValueTypeFloat32, .f32 2139095040⟩, none)
  ∧ createCommandValueFromDeviceResource stdSpecials drF32c "-Inf" =
      (some ⟨"fres", ValueTypeFloat32, .f32 4286578688⟩, none)
  ∧ createCommandValueFromDeviceResource stdSpecials drF64c "NaN" =
      (some ⟨"fre8", ValueTypeFloat64, .f64 9221120237041090560⟩, none)
  ∧ isNaN64 9221120237041090560 = true :=
  ⟨float_decimal_path_accepts_specials.1 stdSpecials drF32c "NaN" 2143289344
     (by decide) (by decide),
   by decide,
   float_decimal_path_accepts_specials.1 stdSpecials drF32c "Inf" 2139095040
     (by decide) (by decide),
   float_decimal_path_accepts_specials.1 stdSpecials drF32c "-Inf" 4286578688
     (by decide) (by decide),
   float_decimal_path_accepts_specials.2 stdSpecials drF64c "NaN" 9221120237041090560
     (by decide) (by decide),
   by decide⟩

/-- C6: a composite command whose Resource Operation count exceeds the
configured maximum fails with ServerError with no driver invocation, with the
same check on the read and the write path; the conclusion holds for every
body (in particular for bodies that do not parse), because the write-side
check precedes body parsing. -/
theorem maxCmdOps_limit_enforced_before_parse (env : Env) (c : CommandProcessor)
    (dc : DeviceCommand)
    (hdc : env.cache.deviceCommand c.device.profileName c.sourceName = some dc)
    (hlen : dc.resourceOperations.length > env.config.maxCmdOps) :
    (dc.readWrite ≠ ReadWrite_W →
      ReadDeviceCommand env c = (.error ⟨.serverError,
        "GET command " ++ dc.name ++ " exceed device " ++ c.device.name ++ " MaxCmdOps ("
          ++ toString env.config.maxCmdOps ++ ")"⟩, []))
  ∧ (dc.readWrite ≠ ReadWrite_R →
      WriteDeviceCommand env c = (.error ⟨.serverError,
        "SET command " ++ dc.name ++ " exceed device " ++ c.device.name ++ " MaxCmdOps ("
          ++ toString env.config.maxCmdOps ++ ")"⟩, [])) := by
  constructor <;> intro h <;> simp [ReadDeviceCommand, WriteDeviceCommand, hdc, h, hlen]

/-- Composite command with two operations against a maximum of one, invoked
with a body that is not valid JSON. -/
def roA : ResourceOperation := ⟨"r1", "", []⟩
def dcBig : DeviceCommand := ⟨"big", "RW", [roA, roA]⟩
def cacheC6 : Cache :=
  ⟨fun _ => some devUp, fun _ _ => none, fun _ cmd => if cmd = "big" then some dcBig else none⟩
def envC6 : Env := mkEnv .unlocked cacheC6 ⟨1, false⟩ stdSyn
def procC6 : CommandProcessor := ⟨devUp, "big", "", "this is not json", ""⟩

/-- Witness for C6: two operations against a maximum of one fail on both
paths with the MaxCmdOps ServerError and an empty driver trace, even though
the supplied body would not even parse. -/
theorem maxCmdOps_limit_enforced_before_parse_witness :
    ReadDeviceCommand envC6 procC6 = (.error ⟨.serverError,
      "GET command big exceed device dev1 MaxCmdOps (1)"⟩, [])
  ∧ WriteDeviceCommand envC6 procC6 = (.error ⟨.serverError,
      "SET command big exceed device dev1 MaxCmdOps (1)"⟩, []) :=
  ⟨(maxCmdOps_limit_enforced_before_parse envC6 procC6 dcBig (by decide) (by decide)).1
     (by decide),
   (maxCmdOps_limit_enforced_before_parse envC6 procC6 dcBig (by decide) (by decide)).2
     (by decide)⟩

/-- C7: the write-value mapping: with an empty table the candidate passes
through unchanged; if some entry's value equals the candidate it is replaced
by a matching entry's key; if no entry matches, the candidate is unchanged and
the loop iteration hands exactly the unchanged candidate to the Value Codec
(the mapping step can never fail the invocation by itself). -/
theorem mapping_resolver_behavior (ms : List (String × String)) (value : String) :
    (applyMappings [] value = value)
  ∧ ((∃ kv ∈ ms, kv.2 = value) → ∃ k, (k, value) ∈ ms ∧ applyMappings ms value = k)
  ∧ ((∀ kv ∈ ms, kv.2 ≠ value) → applyMappings ms value = value)
  ∧ (∀ env c dcName m ro dr v,
      env.cache.deviceResource c.device.profileName ro.deviceResource = some dr →
      dr.properties.readWrite ≠ ReadWrite_R →
      resolveValue m ro dr = .ok v →
      (∀ kv ∈ ro.mappings, kv.2 ≠ v) →
      processOp env c dcName m ro = cvStep env.std dr v) := by
  have aux : ∀ (l : List (String × String)) (w : String),
      (∀ kv ∈ l, kv.2 ≠ w) → applyMappings l w = w := by
    intro l w h
    induction l with
    | nil => rfl
    | cons kv rest ih =>
      have hkv := h kv (by simp)
      simp only [applyMappings, if_neg hkv]
      exact ih (fun kv2 hm => h kv2 (by simp [hm]))
  refine ⟨rfl, ?_, aux ms value, ?_⟩
  · rintro ⟨kv, hmem, hval⟩
    induction ms with
    | nil => simp at hmem
    | cons kv0 rest ih =>
      by_cases h0 : kv0.2 = value
      · refine ⟨kv0.1, ?_, ?_⟩
        · simp [← h0]
        · cases kv0
          simp_all [applyMappings]
      · rcases List.mem_cons.mp hmem with h | h
        · exact absurd (h ▸ hval) h0
        · obtain ⟨k, hk, he⟩ := ih h
          refine ⟨k, List.mem_cons_of_mem _ hk, ?_⟩
          cases kv0
          simp_all [applyMappings]
  · intro env c dcName m ro dr v hdr hrw hres hnomatch
    simp [processOp, hdr, hrw, hres, aux ro.mappings v hnomatch]

/-- String resource with a declared default, and variants used by the
mapping and value-resolution scenarios. -/
def drDef : DeviceResource := ⟨"r1", ⟨"String", "RW", "drdef"⟩, []⟩
def drNoDef : DeviceResource := ⟨"r1", ⟨"String", "RW", ""⟩, []⟩
def roDef : ResourceOperation := ⟨"r1", "rodef", []⟩
def roNoDef : ResourceOperation := ⟨"r1", "", []⟩
def roMapped : ResourceOperation := ⟨"r1", "", [("ON", "1"), ("OFF", "0")]⟩
def cacheC7 : Cache :=
  ⟨fun _ => some devUp, fun _ r => if r = "r1" then some drDef else none, fun _ _ => none⟩
def envC7 : Env := mkEnv .unlocked cacheC7 ⟨16, false⟩ stdSyn
def procC7 : CommandProcessor := ⟨devUp, "r1", "", "", ""⟩

/-- Witness for C7: with table ON maps-to 1 / OFF maps-to 0, the candidate 1
resolves to ON; the candidate 2 matches nothing and is handed unchanged to
the codec, which decodes it as a String without any mapping-induced
failure. -/
theorem mapping_resolver_behavior_witness :
    (∃ k, (k, "1") ∈ [("ON", "1"), ("OFF", "0")] ∧
      applyMappings [("ON", "1"), ("OFF", "0")] "1" = k)
  ∧ applyMappings [("ON", "1"), ("OFF", "0")] "2" = "2"
  ∧ applyMappings [] "2" = "2"
  ∧ processOp envC7 procC7 "cmdX" [("r1", "2")] roMapped = cvStep stdSyn drDef "2" :=
  ⟨(mapping_resolver_behavior [("ON", "1"), ("OFF", "0")] "1").2.1
     ⟨("ON", "1"), by decide, rfl⟩,
   (mapping_resolver_behavior [("ON", "1"), ("OFF", "0")] "2").2.2.1 (by decide),
   (mapping_resolver_behavior [("ON", "1"), ("OFF", "0")] "2").1,
   (mapping_resolver_behavior [("ON", "1"), ("OFF", "0")] "2").2.2.2
     envC7 procC7 "cmdX" [("r1", "2")] roMapped drDef "2"
     (by decide) (by decide) (by decide) (by decide)⟩

/-- C9: the textual value decoded for a Resource Operation of a composite
write is resolved with the exact precedence body entry, else the operation's
own default, else the backing resource's default, else a ServerError. -/
theorem write_value_resolution_precedence (m : List (String × String))
    (ro : ResourceOperation) (dr : DeviceResource) :
    (∀ v, mapGet m ro.deviceResource = some v → resolveValue m ro dr = .ok v)
  ∧ (mapGet m ro.deviceResource = none → ro.defaultValue ≠ "" →
      resolveValue m ro dr = .ok ro.defaultValue)
  ∧ (mapGet m ro.deviceResource = none → ro.defaultValue = "" →
      dr.properties.defaultValue ≠ "" → resolveValue m ro dr = .ok dr.properties.defaultValue)
  ∧ (mapGet m ro.deviceResource = none → ro.defaultValue = "" →
      dr.properties.defaultValue = "" →
      resolveValue m ro dr = .error ⟨.serverError, "deviceResource " ++ dr.name ++
        " not found in request body and no default value defined"⟩) := by
  unfold resolveValue
  refine ⟨?_, ?_, ?_, ?_⟩ <;> intros <;> simp_all

/-- Witness for C9: the four precedence outcomes at concrete inputs — a body
entry wins over both defaults, the operation default wins over the resource
default, the resource default is used last, and with no source at all the
resolution fails with ServerError. -/
theorem write_value_resolution_precedence_witness :
    resolveValue [("r1", "bodyv")] roDef drDef = .ok "bodyv"
  ∧ resolveValue [("zz", "x")] roDef drDef = .ok "rodef"
  ∧ resolveValue [("zz", "x")] roNoDef drDef = .ok "drdef"
  ∧ resolveValue [("zz", "x")] roNoDef drNoDef = .error ⟨.serverError,
      "deviceResource r1 not found in request body and no default value defined"⟩ :=
  ⟨(write_value_resolution_precedence [("r1", "bodyv")] roDef drDef).1 "bodyv" (by decide),
   (write_value_resolution_precedence [("zz", "x")] roDef drDef).2.1 (by decide) (by decide),
   (write_value_resolution_precedence [("zz", "x")] roNoDef drDef).2.2.1
     (by decide) (by decide) (by decide),
   (write_value_resolution_precedence [("zz", "x")] roNoDef drNoDef).2.2.2
     (by decide) (by decide) (by decide)⟩

/-- C8: permission checks fail before any driver call: a read of a WriteOnly
resource or composite command fails NotAllowed with an empty driver trace; a
write of a ReadOnly resource or composite command fails NotAllowed with an
empty driver trace; and a composite write whose operations reach a
constituent whose backing resource is ReadOnly (every earlier operation
processing successfully) fails NotAllowed with an empty driver trace. -/
theorem permission_violations_fail_before_driver :
    (∀ env c dr, env.cache.deviceResource c.device.profileName c.sourceName = some dr →
      dr.properties.readWrite = ReadWrite_W →
      (ReadDeviceResource env c).1.errKind = some .notAllowed ∧ (ReadDeviceResource env c).2 = [])
  ∧ (∀ env c dc, env.cache.deviceCommand c.device.profileName c.sourceName = some dc →
      dc.readWrite = ReadWrite_W →
      (ReadDeviceCommand env c).1.errKind = some .notAllowed ∧ (ReadDeviceCommand env c).2 = [])
  ∧ (∀ env c dr, env.cache.deviceResource c.device.profileName c.sourceName = some dr →
      dr.properties.readWrite = ReadWrite_R →
      (WriteDeviceResource env c).1.errKind = some .notAllowed ∧
        (WriteDeviceResource env c).2 = [])
  ∧ (∀ env c dc, env.cache.deviceCommand c.device.profileName c.sourceName = some dc →
      dc.readWrite = ReadWrite_R →
      (WriteDeviceCommand env c).1.errKind = some .notAllowed ∧ (WriteDeviceCommand env c).2 = [])
  ∧ (∀ env c dc pre ro post m cvsPre dr,
      env.cache.deviceCommand c.device.profileName c.sourceName = some dc →
      dc.readWrite ≠ ReadWrite_R →
      ¬ dc.resourceOperations.length > env.config.maxCmdOps →
      parseParams env.std c.body = .ok m →
      dc.resourceOperations = pre ++ ro :: post →
      processOps env c dc.name m pre = .ok cvsPre →
      env.cache.deviceResource c.device.profileName ro.deviceResource = some dr →
      dr.properties.readWrite = ReadWrite_R →
      (WriteDeviceCommand env c).1.errKind = some .notAllowed ∧
        (WriteDeviceCommand env c).2 = []) := by
  refine ⟨?_, ?_, ?_, ?_, ?_⟩
  · intro env c dr h1 h2
    simp [ReadDeviceResource, h1, h2, GoOutcome.errKind]
  · intro env c dc h1 h2
    simp [ReadDeviceCommand, h1, h2, GoOutcome.errKind]
  · intro env c dr h1 h2
    simp [WriteDeviceResource, h1, h2, GoOutcome.errKind]
  · intro env c dc h1 h2
    simp [WriteDeviceCommand, h1, h2, GoOutcome.errKind]
  · intro env c dc pre ro post m cvsPre dr hdc hrw hlen hpp hops hpre hdr hR
    have hop : processOp env c dc.name m ro = .error ⟨.notAllowed,
        "deviceResource " ++ ro.deviceResource ++ " in SET command " ++ dc.name
          ++ " is marked as read-only"⟩ := by
      simp [processOp, hdr, hR]
    have hall : processOps env c dc.name m dc.resourceOperations = .error ⟨.notAllowed,
        "deviceResource " ++ ro.deviceResource ++ " in SET command " ++ dc.name
          ++ " is marked as read-only"⟩ := by
      rw [hops, processOps_append, hpre]
      simp [processOps, hop]
    simp [WriteDeviceCommand, hdc, hrw, hlen, hpp, hall, GoOutcome.errKind]

/-- Permission scenario: a write-only resource and command, a read-only
resource and command, and a mixed composite write whose second operation is
backed by the read-only resource. -/
def drW : DeviceResource := ⟨"wres", ⟨"String", "W", ""⟩, []⟩
def drR : DeviceResource := ⟨"rres", ⟨"String", "R", ""⟩, []⟩
def drS : DeviceResource := ⟨"sres", ⟨"String", "RW", ""⟩, []⟩
def roS : ResourceOperation := ⟨"sres", "", []⟩
def roR2 : ResourceOperation := ⟨"rres", "", []⟩
def dcW : DeviceCommand := ⟨"wcmd", "W", [roS]⟩
def dcR : DeviceCommand := ⟨"rcmd", "R", [roS]⟩
def dcMix : DeviceCommand := ⟨"mix", "RW", [roS, roR2]⟩
def stdC8 : GoStd :=
  ⟨fun _ => .errSyntax, fun _ => .errSyntax, fun _ => some [("sres", "x")], fun _ => none,
   fun _ => none, fun _ => none, fun _ => none, fun _ => none, fun _ => none, fun _ => none⟩
def cacheC8 : Cache :=
  ⟨fun _ => some devUp,
   fun _ r =>
     if r = "wres" then some drW
     else if r = "rres" then some drR
     else if r = "sres" then some drS
     else none,
   fun _ cmd =>
     if cmd = "wcmd" then some dcW
     else if cmd = "rcmd" then some dcR
     else if cmd = "mix" then some dcMix
     else none⟩
def envC8 : Env := mkEnv .unlocked cacheC8 ⟨16, false⟩ stdC8
def procWres : CommandProcessor := ⟨devUp, "wres", "", "b", ""⟩
def procWcmd : CommandProcessor := ⟨devUp, "wcmd", "", "b", ""⟩
def procRres : CommandProcessor := ⟨devUp, "rres", "", "b", ""⟩
def procRcmd : CommandProcessor := ⟨devUp, "rcmd", "", "b", ""⟩
def procMix : CommandProcessor := ⟨devUp, "mix", "", "b", ""⟩

/-- Witness for C8: each of the five permission violations at a concrete
profile ends NotAllowed with an empty driver trace. -/
theorem permission_violations_fail_before_driver_witness :
    ((ReadDeviceResource envC8 procWres).1.errKind = some .notAllowed ∧
      (ReadDeviceResource envC8 procWres).2 = [])
  ∧ ((ReadDeviceCommand envC8 procWcmd).1.errKind = some .notAllowed ∧
      (ReadDeviceCommand envC8 procWcmd).2 = [])
  ∧ ((WriteDeviceResource envC8 procRres).1.errKind = some .notAllowed ∧
      (WriteDeviceResource envC8 procRres).2 = [])
  ∧ ((WriteDeviceCommand envC8 procRcmd).1.errKind = some .notAllowed ∧
      (WriteDeviceCommand envC8 procRcmd).2 = [])
  ∧ ((WriteDeviceCommand envC8 procMix).1.errKind = some .notAllowed ∧
      (WriteDeviceCommand envC8 procMix).2 = []) :=
  ⟨permission_violations_fail_before_driver.1 envC8 procWres drW (by decide) (by decide),
   permission_violations_fail_before_driver.2.1 envC8 procWcmd dcW (by decide) (by decide),
   permission_violations_fail_before_driver.2.2.1 envC8 procRres drR (by decide) (by decide),
   permission_violations_fail_before_driver.2.2.2.1 envC8 procRcmd dcR (by decide) (by decide),
   permission_violations_fail_before_driver.2.2.2.2 envC8 procMix dcMix [roS] roR2 []
     [("sres", "x")] [some ⟨"sres", "String", .str "x"⟩] drR
     (by decide) (by decide) (by decide) (by decide) (by decide) (by decide)
     (by decide) (by decide)⟩
